import Mathlib

/-!
Shallow embedding of the core of the OpenRouter-like gateway:

* request and catalog types and the request schema (src/lib/models.ts),
* the strategy router (src/lib/model-router.ts),
* the response cache (src/lib/cache-manager.ts),
* the custom-endpoint rewriter and the batch processor (src/lib/custom-endpoints.ts),
* the webhook event types (webhooks service),
* the cache-touching behaviour of the chat route (src/app/api/v1/chat/route.ts)
  and of the batch child pipeline.

JavaScript in-memory Maps are embedded as association lists, wall-clock times
as integers (milliseconds), JS numbers used for sampling knobs and prices as
rationals, and the SHA-256 cache fingerprint as the normalized request itself
(the hash is injective for the purposes of the contract).  The availability
probe of the router is a random draw in the source; it is embedded as an
arbitrary oracle parameter.
-/

/-- Association-list lookup, embedding JS `Map.get`. -/
def mapLookup {κ α : Type} [DecidableEq κ] : List (κ × α) → κ → Option α
  | [], _ => none
  | (k, v) :: rest, key => if k = key then some v else mapLookup rest key

/-- Association-list insert-or-replace, embedding JS `Map.set`. -/
def mapInsert {κ α : Type} [DecidableEq κ] : List (κ × α) → κ → α → List (κ × α)
  | [], key, v => [(key, v)]
  | (k, w) :: rest, key, v =>
    if k = key then (key, v) :: rest else (k, w) :: mapInsert rest key v

/-- Association-list removal, embedding JS `Map.delete`. -/
def mapErase {κ α : Type} [DecidableEq κ] : List (κ × α) → κ → List (κ × α)
  | [], _ => []
  | (k, w) :: rest, key => if k = key then rest else (k, w) :: mapErase rest key

/-- Byte-wise order on character lists (used to embed the string comparison
performed by `localeCompare` in the cache-key message sort). -/
def charListLe : List Char → List Char → Bool
  | [], _ => true
  | _ :: _, [] => false
  | a :: as, b :: bs =>
    if a.val < b.val then true
    else if b.val < a.val then false
    else charListLe as bs

/-- String order used for the message sort comparator. -/
def strLe (a b : String) : Bool := charListLe a.data b.data

/-- Stable structural sort by a boolean comparator, embedding
`Array.prototype.sort(comparator)`. -/
def insertSorted {α : Type} (le : α → α → Bool) (a : α) : List α → List α
  | [] => [a]
  | b :: bs => if le a b then a :: b :: bs else b :: insertSorted le a bs

/-- Sort a list with a boolean comparator (model of JS `sort`). -/
def sortByLe {α : Type} (le : α → α → Bool) : List α → List α
  | [] => []
  | a :: as => insertSorted le a (sortByLe le as)

/-! ## Request data model (src/lib/models.ts, `ModelRequestSchema`) -/

/-- The `image_url` object of a content part. -/
structure ImageUrlSpec where
  url : String
  detail : Option String := none
deriving DecidableEq

/-- One element of an array-valued message content. -/
structure ContentPart where
  type : String
  text : Option String := none
  image_url : Option ImageUrlSpec := none
deriving DecidableEq

/-- Message content: either a plain string or a list of parts. -/
inductive MessageContent where
  | str : String → MessageContent
  | parts : List ContentPart → MessageContent
deriving DecidableEq

/-- A chat message. -/
structure ChatMessage where
  role : String
  content : MessageContent
  name : Option String := none
deriving DecidableEq

/-- A legacy function declaration (the `parameters` JSON record is embedded as
an opaque list of key strings; no claim inspects it). -/
structure FunctionSpec where
  name : String
  description : Option String := none
  parameters : Option (List String) := none
deriving DecidableEq

/-- The `function_call` field: a union of a string and a `{name}` object. -/
inductive FunctionCallValue where
  | str : String → FunctionCallValue
  | obj : String → FunctionCallValue
deriving DecidableEq

/-- The function member of a tool declaration. -/
structure ToolFunctionSpec where
  name : String
  description : Option String := none
  parameters : List String := []
deriving DecidableEq

/-- A tool declaration. -/
structure ToolSpec where
  type : String
  function : ToolFunctionSpec
deriving DecidableEq

/-- The `stop` field: a single string or a list of strings. -/
inductive StopSpec where
  | one : String → StopSpec
  | many : List String → StopSpec
deriving DecidableEq

/-- The `response_format` object. -/
structure ResponseFormatSpec where
  type : Option String := none
deriving DecidableEq

/-- Routing strategies (`route` enum of the schema / RoutingStrategy type). -/
inductive RoutingStrategy where
  | default
  | fallback
  | lowestCost
  | fastest
  | highestQuality
deriving DecidableEq

/-- A chat-completion request (the parsed shape of `ModelRequestSchema`).
Optional schema fields are `Option`s; an absent field is `none`. -/
structure ModelRequest where
  model : String
  messages : List ChatMessage
  temperature : Option Rat := none
  max_tokens : Option Int := none
  top_p : Option Rat := none
  stream : Option Bool := none
  stop : Option StopSpec := none
  frequency_penalty : Option Rat := none
  presence_penalty : Option Rat := none
  functions : Option (List FunctionSpec) := none
  function_call : Option FunctionCallValue := none
  tools : Option (List ToolSpec) := none
  route : Option RoutingStrategy := none
  fallbacks : Option (List String) := none
  response_format : Option ResponseFormatSpec := none
deriving DecidableEq

/-! ## Model catalog (src/lib/models.ts) -/

/-- The four feature flags of a catalog entry. -/
structure SupportedFeatures where
  vision : Bool
  functionCalling : Bool
  toolUse : Bool
  json : Bool
deriving DecidableEq

/-- A catalog entry. -/
structure ModelInfo where
  id : String
  provider : String
  name : String
  contextWindow : Nat
  inputPricing : Rat
  outputPricing : Rat
  strengths : List String
  supportedFeatures : SupportedFeatures
  maxOutputTokens : Option Nat := none

/-- The model catalog, in source insertion order. -/
def models : List (String × ModelInfo) :=
  [ ("openai/gpt-4o",
     { id := "openai/gpt-4o", provider := "openai", name := "GPT-4o",
       contextWindow := 128000, inputPricing := 5, outputPricing := 15,
       strengths := ["multimodal", "reasoning", "creative", "code"],
       supportedFeatures :=
         { vision := true, functionCalling := true, toolUse := true, json := true },
       maxOutputTokens := some 4096 }),
    ("openai/gpt-4-turbo",
     { id := "openai/gpt-4-turbo", provider := "openai", name := "GPT-4 Turbo",
       contextWindow := 128000, inputPricing := 10, outputPricing := 30,
       strengths := ["reasoning", "creative", "code"],
       supportedFeatures :=
         { vision := false, functionCalling := true, toolUse := false, json := true },
       maxOutputTokens := some 4096 }),
    ("openai/gpt-3.5-turbo",
     { id := "openai/gpt-3.5-turbo", provider := "openai", name := "GPT-3.5 Turbo",
       contextWindow := 16384, inputPricing := 1/2, outputPricing := 3/2,
       strengths := ["speed", "cost-effective"],
       supportedFeatures :=
         { vision := false, functionCalling := true, toolUse := false, json := true },
       maxOutputTokens := some 4096 }),
    ("anthropic/claude-3-opus",
     { id := "anthropic/claude-3-opus", provider := "anthropic", name := "Claude 3 Opus",
       contextWindow := 200000, inputPricing := 15, outputPricing := 75,
       strengths := ["reasoning", "accuracy", "long-form"],
       supportedFeatures :=
         { vision := true, functionCalling := true, toolUse := true, json := true },
       maxOutputTokens := some 4096 }),
    ("anthropic/claude-3-sonnet",
     { id := "anthropic/claude-3-sonnet", provider := "anthropic", name := "Claude 3 Sonnet",
       contextWindow := 200000, inputPricing := 3, outputPricing := 15,
       strengths := ["balanced", "versatile"],
       supportedFeatures :=
         { vision := true, functionCalling := true, toolUse := true, json := true },
       maxOutputTokens := some 4096 }),
    ("anthropic/claude-3-haiku",
     { id := "anthropic/claude-3-haiku", provider := "anthropic", name := "Claude 3 Haiku",
       contextWindow := 200000, inputPricing := 1/4, outputPricing := 5/4,
       strengths := ["speed", "cost-effective"],
       supportedFeatures :=
         { vision := true, functionCalling := true, toolUse := false, json := true },
       maxOutputTokens := some 4096 }),
    ("google/gemini-1.5-pro",
     { id := "google/gemini-1.5-pro", provider := "google", name := "Gemini 1.5 Pro",
       contextWindow := 1000000, inputPricing := 7, outputPricing := 21,
       strengths := ["long-context", "multimodal"],
       supportedFeatures :=
         { vision := true, functionCalling := true, toolUse := true, json := true },
       maxOutputTokens := some 8192 }),
    ("google/gemini-1.5-flash",
     { id := "google/gemini-1.5-flash", provider := "google", name := "Gemini 1.5 Flash",
       contextWindow := 1000000, inputPricing := 3/2, outputPricing := 5,
       strengths := ["speed", "cost-effective", "long-context"],
       supportedFeatures :=
         { vision := true, functionCalling := true, toolUse := false, json := true },
       maxOutputTokens := some 8192 }),
    ("meta-llama/llama-3-70b-instruct",
     { id := "meta-llama/llama-3-70b-instruct", provider := "meta-llama",
       name := "Llama 3 70B Instruct",
       contextWindow := 8192, inputPricing := 9/10, outputPricing := 27/10,
       strengths := ["open-source", "cost-effective"],
       supportedFeatures :=
         { vision := false, functionCalling := false, toolUse := false, json := false },
       maxOutputTokens := some 4096 }) ]

/-- `getModelById` of the source. -/
def getModelById (id : String) : Option ModelInfo := mapLookup models id

/-- `getRecommendedFallbacks` of the source (`fallbackMap`, default empty). -/
def getRecommendedFallbacks (modelId : String) : List String :=
  (mapLookup
    [ ("openai/gpt-4o",
        ["anthropic/claude-3-opus", "openai/gpt-4-turbo", "google/gemini-1.5-pro"]),
      ("anthropic/claude-3-opus",
        ["openai/gpt-4o", "anthropic/claude-3-sonnet", "google/gemini-1.5-pro"]),
      ("google/gemini-1.5-pro",
        ["openai/gpt-4o", "anthropic/claude-3-opus", "anthropic/claude-3-sonnet"]),
      ("anthropic/claude-3-sonnet",
        ["anthropic/claude-3-haiku", "openai/gpt-3.5-turbo", "meta-llama/llama-3-70b-instruct"]),
      ("openai/gpt-3.5-turbo",
        ["anthropic/claude-3-haiku", "meta-llama/llama-3-70b-instruct", "google/gemini-1.5-flash"]),
      ("anthropic/claude-3-haiku",
        ["openai/gpt-3.5-turbo", "meta-llama/llama-3-70b-instruct", "google/gemini-1.5-flash"]) ]
    modelId).getD []

/-! ## Router (src/lib/model-router.ts) -/

/-- JS truthiness of the `function_call` field as tested by
`request.function_call` in `getRequiredFeatures`: an empty string is falsy. -/
def functionCallTruthy : Option FunctionCallValue → Bool
  | none => false
  | some (FunctionCallValue.str s) => !(s = "")
  | some (FunctionCallValue.obj _) => true

/-- Whether a message content is an array containing an `image_url` part. -/
def messageHasImagePart (m : ChatMessage) : Bool :=
  match m.content with
  | MessageContent.str _ => false
  | MessageContent.parts ps => ps.any (fun c => c.type = "image_url")

/-- `getRequiredFeatures` of the source: the feature set a request requires,
encoded as four flags. -/
def getRequiredFeatures (r : ModelRequest) : SupportedFeatures :=
  { vision := r.messages.any messageHasImagePart,
    functionCalling :=
      (match r.functions with
       | some fs => !fs.isEmpty
       | none => false) || functionCallTruthy r.function_call,
    toolUse :=
      match r.tools with
      | some ts => !ts.isEmpty
      | none => false,
    json :=
      match r.response_format with
      | some rf => rf.type = some "json_object"
      | none => false }

/-- Pointwise flag inclusion: every required flag is supported (the loop body
of `modelSupportsFeatures`). -/
def featureSuperset (required supported : SupportedFeatures) : Bool :=
  (!required.vision || supported.vision) &&
  (!required.functionCalling || supported.functionCalling) &&
  (!required.toolUse || supported.toolUse) &&
  (!required.json || supported.json)

/-- `modelSupportsFeatures` of the source: unknown model ids are rejected. -/
def modelSupportsFeatures (modelId : String) (required : SupportedFeatures) : Bool :=
  match getModelById modelId with
  | none => false
  | some m => featureSuperset required m.supportedFeatures

/-- `getRecommendedFallbacksForFeatures` of the source. -/
def getRecommendedFallbacksForFeatures (modelId : String)
    (required : SupportedFeatures) : List String :=
  (getRecommendedFallbacks modelId).filter
    (fun fallbackId => modelSupportsFeatures fallbackId required)

/-- `handleFallbackRouting` of the source.  `avail` is the availability
oracle standing in for the random `isModelAvailable` probe; `none` embeds the
thrown "No available models found" error. -/
def handleFallbackRouting (avail : String → Bool) (primaryModel : String)
    (fallbacks : List String) (required : SupportedFeatures) : Option String :=
  if avail primaryModel && modelSupportsFeatures primaryModel required then
    some primaryModel
  else
    match fallbacks.find? (fun f => avail f && modelSupportsFeatures f required) with
    | some f => some f
    | none =>
      ((models.map Prod.fst).filter
          (fun id => !(id = primaryModel) && !(fallbacks.contains id))).find?
        (fun id => avail id && modelSupportsFeatures id required)

/-- `findLowestCostModel` of the source: filter eligible catalog entries, sort
ascending by combined price, take the first available. -/
def findLowestCostModel (avail : String → Bool)
    (required : SupportedFeatures) : Option String :=
  let modelsByCost :=
    sortByLe
      (fun a b => a.inputPricing + a.outputPricing ≤ b.inputPricing + b.outputPricing)
      ((models.map Prod.snd).filter (fun m => modelSupportsFeatures m.id required))
  (modelsByCost.find? (fun m => avail m.id)).map (fun m => m.id)

/-- The fixed speed-ranked id list of `findFastestModel`. -/
def fastestModels : List String :=
  [ "anthropic/claude-3-haiku", "openai/gpt-3.5-turbo", "google/gemini-1.5-flash",
    "meta-llama/llama-3-70b-instruct", "anthropic/claude-3-sonnet", "openai/gpt-4o",
    "google/gemini-1.5-pro", "anthropic/claude-3-opus" ]

/-- `findFastestModel` of the source. -/
def findFastestModel (avail : String → Bool)
    (required : SupportedFeatures) : Option String :=
  fastestModels.find? (fun id => avail id && modelSupportsFeatures id required)

/-- The fixed quality-ranked id list of `findHighestQualityModel`. -/
def highestQualityModels : List String :=
  [ "anthropic/claude-3-opus", "openai/gpt-4o", "google/gemini-1.5-pro",
    "openai/gpt-4-turbo", "anthropic/claude-3-sonnet", "google/gemini-1.5-flash",
    "meta-llama/llama-3-70b-instruct", "anthropic/claude-3-haiku",
    "openai/gpt-3.5-turbo" ]

/-- `findHighestQualityModel` of the source. -/
def findHighestQualityModel (avail : String → Bool)
    (required : SupportedFeatures) : Option String :=
  highestQualityModels.find? (fun id => avail id && modelSupportsFeatures id required)

/-- `routeRequest` of the source.  `route` defaults to `default` and
`fallbacks` to `[]` exactly as the destructuring default does. -/
def routeRequest (avail : String → Bool) (request : ModelRequest) : Option String :=
  let requiredFeatures := getRequiredFeatures request
  let fallbacks := request.fallbacks.getD []
  match request.route.getD RoutingStrategy.default with
  | RoutingStrategy.fallback =>
    handleFallbackRouting avail request.model fallbacks requiredFeatures
  | RoutingStrategy.lowestCost => findLowestCostModel avail requiredFeatures
  | RoutingStrategy.fastest => findFastestModel avail requiredFeatures
  | RoutingStrategy.highestQuality => findHighestQualityModel avail requiredFeatures
  | RoutingStrategy.default =>
    if avail request.model then
      if modelSupportsFeatures request.model requiredFeatures then
        some request.model
      else
        handleFallbackRouting avail request.model
          (getRecommendedFallbacksForFeatures request.model requiredFeatures)
          requiredFeatures
    else
      handleFallbackRouting avail request.model
        (if fallbacks.length > 0 then fallbacks else getRecommendedFallbacks request.model)
        requiredFeatures

/-! ## Custom endpoints (src/lib/custom-endpoints.ts, CustomEndpointsManager) -/

/-- The per-endpoint rate limit object. -/
structure EndpointRateLimit where
  requestsPerMinute : Option Int := none
  tokensPerMinute : Option Int := none
deriving DecidableEq

/-- Default sampling parameters of an endpoint preset. -/
structure EndpointParameters where
  temperature : Option Rat := none
  maxTokens : Option Int := none
  topP : Option Rat := none
  frequencyPenalty : Option Rat := none
  presencePenalty : Option Rat := none
deriving DecidableEq

/-- A stored custom endpoint (`CustomEndpointConfig`). -/
structure CustomEndpointConfig where
  id : String
  name : String
  description : String
  baseModel : String
  fallbacks : List String
  routingStrategy : RoutingStrategy
  parameters : EndpointParameters
  systemPrompt : Option String := none
  createdAt : Int
  updatedAt : Int
  owner : String
  isPublic : Bool
  apiKey : Option String := none
  rateLimit : Option EndpointRateLimit := none
deriving DecidableEq

/-- Step 1 of `applyEndpointToRequest`: overwrite `model` and `route`. -/
def applyEndpointBase (endpoint : CustomEndpointConfig) (r : ModelRequest) : ModelRequest :=
  { r with model := endpoint.baseModel, route := some endpoint.routingStrategy }

/-- Step 2: copy the endpoint fallbacks when the request supplied none
(`!modifiedRequest.fallbacks && endpoint.fallbacks.length > 0`; a present
empty list is truthy in JS and is kept). -/
def applyEndpointFallbacks (endpoint : CustomEndpointConfig) (r : ModelRequest) : ModelRequest :=
  if r.fallbacks.isNone && !endpoint.fallbacks.isEmpty then
    { r with fallbacks := some endpoint.fallbacks }
  else r

/-- Step 3: prepend the endpoint system prompt when it is truthy (non-empty)
and the request has no `system` message. -/
def applyEndpointSystemPrompt (endpoint : CustomEndpointConfig) (r : ModelRequest) : ModelRequest :=
  match endpoint.systemPrompt with
  | some sp =>
    if !(sp = "") && !(r.messages.any (fun m => m.role = "system")) then
      { r with messages :=
          { role := "system", content := MessageContent.str sp } :: r.messages }
    else r
  | none => r

/-- Step 4a: default `temperature` from the preset when the caller set none. -/
def applyEndpointTemperature (endpoint : CustomEndpointConfig) (r : ModelRequest) : ModelRequest :=
  match endpoint.parameters.temperature, r.temperature with
  | some t, none => { r with temperature := some t }
  | _, _ => r

/-- Step 4b: default `max_tokens`. -/
def applyEndpointMaxTokens (endpoint : CustomEndpointConfig) (r : ModelRequest) : ModelRequest :=
  match endpoint.parameters.maxTokens, r.max_tokens with
  | some v, none => { r with max_tokens := some v }
  | _, _ => r

/-- Step 4c: default `top_p`. -/
def applyEndpointTopP (endpoint : CustomEndpointConfig) (r : ModelRequest) : ModelRequest :=
  match endpoint.parameters.topP, r.top_p with
  | some v, none => { r with top_p := some v }
  | _, _ => r

/-- Step 4d: default `frequency_penalty`. -/
def applyEndpointFrequencyPenalty (endpoint : CustomEndpointConfig) (r : ModelRequest) : ModelRequest :=
  match endpoint.parameters.frequencyPenalty, r.frequency_penalty with
  | some v, none => { r with frequency_penalty := some v }
  | _, _ => r

/-- Step 4e: default `presence_penalty`. -/
def applyEndpointPresencePenalty (endpoint : CustomEndpointConfig) (r : ModelRequest) : ModelRequest :=
  match endpoint.parameters.presencePenalty, r.presence_penalty with
  | some v, none => { r with presence_penalty := some v }
  | _, _ => r

/-- `applyEndpointToRequest` on a found endpoint: the sequential field
mutations of the source, composed in source order. -/
def applyEndpointToRequest (endpoint : CustomEndpointConfig) (request : ModelRequest) : ModelRequest :=
  applyEndpointPresencePenalty endpoint
    (applyEndpointFrequencyPenalty endpoint
      (applyEndpointTopP endpoint
        (applyEndpointMaxTokens endpoint
          (applyEndpointTemperature endpoint
            (applyEndpointSystemPrompt endpoint
              (applyEndpointFallbacks endpoint
                (applyEndpointBase endpoint request)))))))

/-- The endpoint store of the singleton manager. -/
def EndpointStore : Type := List (String × CustomEndpointConfig)

/-- The full `applyEndpointToRequest` member: look the endpoint up by id;
`none` embeds the `null` (NOT_FOUND) result.  The source takes no caller
argument and performs no accessibility check. -/
def applyEndpointToRequestM (endpoints : EndpointStore) (endpointId : String)
    (request : ModelRequest) : Option ModelRequest :=
  (mapLookup endpoints endpointId).map
    (fun endpoint => applyEndpointToRequest endpoint request)

/-- `Partial<CustomEndpointInput>`: the updatable fields, each optionally
present.  `id`, `owner` and `createdAt` are not part of the input type. -/
structure CustomEndpointInputPartial where
  name : Option String := none
  description : Option String := none
  baseModel : Option String := none
  fallbacks : Option (List String) := none
  routingStrategy : Option RoutingStrategy := none
  parameters : Option EndpointParameters := none
  systemPrompt : Option String := none
  isPublic : Option Bool := none
  apiKey : Option String := none
  rateLimit : Option EndpointRateLimit := none
deriving DecidableEq

/-- `updateEndpoint` of the source: owner check, then the JS spread
`{...endpoint, ...input, updatedAt}` (present input fields override, absent
ones keep the stored value), then `Map.set`. -/
def updateEndpoint (endpoints : EndpointStore) (id : String)
    (input : CustomEndpointInputPartial) (owner : String) (now : Int) :
    Option CustomEndpointConfig × EndpointStore :=
  match mapLookup endpoints id with
  | none => (none, endpoints)
  | some endpoint =>
    if endpoint.owner = owner then
      let updatedEndpoint : CustomEndpointConfig :=
        { id := endpoint.id,
          name := input.name.getD endpoint.name,
          description := input.description.getD endpoint.description,
          baseModel := input.baseModel.getD endpoint.baseModel,
          fallbacks := input.fallbacks.getD endpoint.fallbacks,
          routingStrategy := input.routingStrategy.getD endpoint.routingStrategy,
          parameters := input.parameters.getD endpoint.parameters,
          systemPrompt :=
            match input.systemPrompt with
            | some s => some s
            | none => endpoint.systemPrompt,
          createdAt := endpoint.createdAt,
          updatedAt := now,
          owner := endpoint.owner,
          isPublic := input.isPublic.getD endpoint.isPublic,
          apiKey :=
            match input.apiKey with
            | some s => some s
            | none => endpoint.apiKey,
          rateLimit :=
            match input.rateLimit with
            | some rl => some rl
            | none => endpoint.rateLimit }
      (some updatedEndpoint, mapInsert endpoints id updatedEndpoint)
    else (none, endpoints)

/-! ## Response cache (src/lib/cache-manager.ts) -/

/-- The `keyStrategy` cache option. -/
inductive KeyStrategy where
  | exact
  | semantic
deriving DecidableEq

/-- Fully resolved cache options. -/
structure CacheOptions where
  ttl : Int
  keyStrategy : KeyStrategy
  ignoreTemperature : Bool
  ignoreTopP : Bool
  cachingEnabled : Bool
deriving DecidableEq

/-- `Partial<CacheOptions>` as passed by callers. -/
structure PartialCacheOptions where
  ttl : Option Int := none
  keyStrategy : Option KeyStrategy := none
  ignoreTemperature : Option Bool := none
  ignoreTopP : Option Bool := none
  cachingEnabled : Option Bool := none
deriving DecidableEq

/-- `DEFAULT_CACHE_OPTIONS` (1h ttl, exact keying, caching enabled). -/
def defaultCacheOptions : CacheOptions :=
  { ttl := 3600000, keyStrategy := KeyStrategy.exact,
    ignoreTemperature := false, ignoreTopP := false, cachingEnabled := true }

/-- The spread `{...this.defaultOptions, ...options}`. -/
def mergeCacheOptions (d : CacheOptions) (p : PartialCacheOptions) : CacheOptions :=
  { ttl := p.ttl.getD d.ttl,
    keyStrategy := p.keyStrategy.getD d.keyStrategy,
    ignoreTemperature := p.ignoreTemperature.getD d.ignoreTemperature,
    ignoreTopP := p.ignoreTopP.getD d.ignoreTopP,
    cachingEnabled := p.cachingEnabled.getD d.cachingEnabled }

/-- Token usage attached to a cached response. -/
structure TokenUsage where
  input : Nat
  output : Nat
  total : Nat
deriving DecidableEq

/-- A cache entry (`CachedResponse`); the response payload is opaque. -/
structure CachedResponse (ρ : Type) where
  modelId : String
  response : ρ
  createdAt : Int
  expiresAt : Int
  tokenUsage : TokenUsage

/-- The in-memory cache map, keyed by the normalized request (the SHA-256
fingerprint of the source is embedded as the normalized request itself).  A
JS `Map` is embedded as a partial function from keys to entries. -/
def CacheState (ρ : Type) : Type := ModelRequest → Option (CachedResponse ρ)

/-- The empty cache. -/
def emptyCache (ρ : Type) : CacheState ρ := fun _ => none

/-- `Map.set` on the cache. -/
def cacheInsert {ρ : Type} (cache : CacheState ρ) (key : ModelRequest)
    (v : CachedResponse ρ) : CacheState ρ :=
  fun k => if k = key then some v else cache k

/-- `Map.delete` on the cache. -/
def cacheErase {ρ : Type} (cache : CacheState ρ) (key : ModelRequest) : CacheState ρ :=
  fun k => if k = key then none else cache k

/-- Model of `JSON.stringify` on a string value. -/
def jsonString (s : String) : String := "\"" ++ s ++ "\""

/-- Model of `JSON.stringify` on an `image_url` object. -/
def stringifyImageUrl (iu : ImageUrlSpec) : String :=
  "\x7b\"url\":" ++ jsonString iu.url ++
    (match iu.detail with
     | some d => ",\"detail\":" ++ jsonString d
     | none => "") ++ "\x7d"

/-- Model of `JSON.stringify` on a content part. -/
def stringifyContentPart (p : ContentPart) : String :=
  "\x7b\"type\":" ++ jsonString p.type ++
    (match p.text with
     | some t => ",\"text\":" ++ jsonString t
     | none => "") ++
    (match p.image_url with
     | some iu => ",\"image_url\":" ++ stringifyImageUrl iu
     | none => "") ++ "\x7d"

/-- Model of `JSON.stringify` on a message content. -/
def stringifyContent : MessageContent → String
  | MessageContent.str s => jsonString s
  | MessageContent.parts ps =>
    "[" ++ String.intercalate "," (ps.map stringifyContentPart) ++ "]"

/-- Model of `JSON.stringify` on a message (schema field order, absent
optional fields omitted). -/
def stringifyMessage (m : ChatMessage) : String :=
  "\x7b\"role\":" ++ jsonString m.role ++
    ",\"content\":" ++ stringifyContent m.content ++
    (match m.name with
     | some n => ",\"name\":" ++ jsonString n
     | none => "") ++ "\x7d"

/-- The message sort comparator of `generateCacheKey`: by role, ties broken
by the stringified message (`localeCompare` embedded as byte order). -/
def messageSortLe (a b : ChatMessage) : Bool :=
  if a.role = b.role then strLe (stringifyMessage a) (stringifyMessage b)
  else strLe a.role b.role

/-- The semantic-keying per-message normalization: keep `role`, lowercase and
trim string content, drop `name` (the source maps to a `{role, content}`
object). -/
def semanticNormalizeMessage (m : ChatMessage) : ChatMessage :=
  { role := m.role,
    content :=
      match m.content with
      | MessageContent.str s => MessageContent.str s.toLower.trim
      | c => c,
    name := none }

/-- `generateCacheKey`: drop `stream`, optionally drop `temperature` and
`top_p`, sort messages, and for semantic keying keep only normalized user
messages.  The final SHA-256 hash is embedded as the normalized request. -/
def generateCacheKey (request : ModelRequest) (options : CacheOptions) : ModelRequest :=
  let r1 := { request with stream := none }
  let r2 := if options.ignoreTemperature then { r1 with temperature := none } else r1
  let r3 := if options.ignoreTopP then { r2 with top_p := none } else r2
  let r4 := { r3 with messages := sortByLe messageSortLe r3.messages }
  if options.keyStrategy = KeyStrategy.semantic then
    { r4 with messages :=
        (r4.messages.filter (fun m => m.role = "user")).map semanticNormalizeMessage }
  else r4

/-- `getCachedResponse`: returns the hit (if any) and the cache state after
the access (an entry found expired is deleted by the access). -/
def getCachedResponse {ρ : Type} (cache : CacheState ρ) (now : Int)
    (request : ModelRequest) (options : PartialCacheOptions) :
    Option (CachedResponse ρ) × CacheState ρ :=
  let mergedOptions := mergeCacheOptions defaultCacheOptions options
  if !mergedOptions.cachingEnabled then (none, cache)
  else
    let cacheKey := generateCacheKey request mergedOptions
    match cache cacheKey with
    | some cachedItem =>
      if now < cachedItem.expiresAt then (some cachedItem, cache)
      else (none, cacheErase cache cacheKey)
    | none => (none, cache)

/-- `setCachedResponse`: a no-op when caching is disabled, otherwise stores
the entry under the fingerprint with `expiresAt = now + ttl`. -/
def setCachedResponse {ρ : Type} (cache : CacheState ρ) (now : Int)
    (request : ModelRequest) (response : ρ) (tokenUsage : TokenUsage)
    (options : PartialCacheOptions) : CacheState ρ :=
  let mergedOptions := mergeCacheOptions defaultCacheOptions options
  if !mergedOptions.cachingEnabled then cache
  else
    cacheInsert cache (generateCacheKey request mergedOptions)
      { modelId := request.model, response := response, createdAt := now,
        expiresAt := now + mergedOptions.ttl, tokenUsage := tokenUsage }

/-! ## Webhook event types (webhooks service) -/

/-- The closed set of webhook event types of the source (`WebhookEventType`).
Note there is no constructor for a `batch.completed` event. -/
inductive WebhookEventType where
  | requestCreated
  | requestCompleted
  | requestFailed
  | modelUnavailable
  | modelFallback
  | endpointCreated
  | endpointUpdated
  | endpointDeleted
  | creditLow
  | error
deriving DecidableEq

/-- The string literal of each event type in the source union. -/
def webhookEventTypeName : WebhookEventType → String
  | WebhookEventType.requestCreated => "request.created"
  | WebhookEventType.requestCompleted => "request.completed"
  | WebhookEventType.requestFailed => "request.failed"
  | WebhookEventType.modelUnavailable => "model.unavailable"
  | WebhookEventType.modelFallback => "model.fallback"
  | WebhookEventType.endpointCreated => "endpoint.created"
  | WebhookEventType.endpointUpdated => "endpoint.updated"
  | WebhookEventType.endpointDeleted => "endpoint.deleted"
  | WebhookEventType.creditLow => "credit.low"
  | WebhookEventType.error => "error"

/-- An appended webhook event record (payload opaque). -/
structure WebhookEvent where
  id : String
  timestamp : Int
  userId : String
  type : WebhookEventType
deriving DecidableEq

/-! ## Batch processor (src/lib/custom-endpoints.ts, BatchProcessor) -/

/-- Batch lifecycle states. -/
inductive BatchStatus where
  | pending
  | processing
  | completed
  | failed
deriving DecidableEq

/-- Batch priorities. -/
inductive BatchPriority where
  | low
  | normal
  | high
deriving DecidableEq

/-- One entry of `batch.results`: a response, or the `{error: message}`
object stored for a rejected child. -/
inductive BatchChildResult where
  | ok
  | err : String → BatchChildResult
deriving DecidableEq

/-- The `r.error` truthiness test used by the terminal count recomputation. -/
def batchResultIsError : BatchChildResult → Bool
  | BatchChildResult.ok => false
  | BatchChildResult.err _ => true

/-- A stored batch (`BatchRequest`); `metadata` is omitted as opaque. -/
structure BatchRequest where
  id : String
  userId : String
  requests : List ModelRequest
  createdAt : Int
  status : BatchStatus
  priority : BatchPriority
  completedAt : Option Int := none
  results : Option (List BatchChildResult) := none
  error : Option String := none
  requestCount : Nat
  completedCount : Nat
  failedCount : Nat
  callbackUrl : Option String := none
deriving DecidableEq

/-- Options of `createBatch`. -/
structure BatchRequestOptions where
  priority : Option BatchPriority := none
  callbackUrl : Option String := none
deriving DecidableEq

/-- `createBatch` of the source (the generated id and the clock are passed
explicitly).  The batch starts `pending` with zero counters. -/
def createBatch (id userId : String) (requests : List ModelRequest)
    (options : BatchRequestOptions) (now : Int) : BatchRequest :=
  { id := id, userId := userId, requests := requests, createdAt := now,
    status := BatchStatus.pending,
    priority := options.priority.getD BatchPriority.normal,
    requestCount := requests.length,
    completedCount := 0, failedCount := 0,
    callbackUrl := options.callbackUrl }

/-- `maxConcurrentRequests` of the source. -/
def maxConcurrentRequests : Nat := 5

/-- Split a list into chunks of `n` (the `for (i...; i += max)` slicing of
`processNextBatch`; `n = 0` never occurs at the call site). -/
def chunksOf {α : Type} : Nat → List α → List (List α)
  | _, [] => []
  | 0, l => [l]
  | n + 1, x :: xs => (x :: xs).take (n + 1) :: chunksOf (n + 1) (xs.drop n)
termination_by _n l => l.length
decreasing_by
  simp only [List.length_drop, List.length_cons]
  omega

/-- The cumulative `(completedCount, failedCount)` written back to the batch
after each chunk: each chunk adds its fulfilled and rejected counts to the
current counters.  `true` stands for a fulfilled child, `false` for a
rejected one. -/
def chunkCounterStates (completed failed : Nat) : List (List Bool) → List (Nat × Nat)
  | [] => []
  | chunk :: rest =>
    let c := completed + chunk.countP (fun b => b)
    let f := failed + chunk.countP (fun b => !b)
    (c, f) :: chunkCounterStates c f rest

/-- The `results` array accumulated by `processNextBatch`: one entry per
child in order; rejected children store an error object. -/
def batchResultsOf (outcomes : List Bool) : List BatchChildResult :=
  outcomes.map (fun ok => if ok then BatchChildResult.ok else BatchChildResult.err "Request failed")

/-- The terminal `completed` update of `processNextBatch`: spread of the
creation-time snapshot with status, `completedAt`, `results` and counters
recomputed from the results array. -/
def batchTerminalState (b : BatchRequest) (outcomes : List Bool) (tEnd : Int) : BatchRequest :=
  let results := batchResultsOf outcomes
  { b with
    status := BatchStatus.completed
    completedAt := some tEnd
    results := some results
    completedCount := (results.filter (fun r => !batchResultIsError r)).length
    failedCount := (results.filter (fun r => batchResultIsError r)).length }

/-- The sequence of stored batch states observable while `processNextBatch`
runs a batch to `completed`: the creation state, the `processing` update,
one counter update per chunk, and the terminal update.  `outcomes` lists the
per-child settlement (fulfilled/rejected) in request order. -/
def batchObservableStates (b : BatchRequest) (outcomes : List Bool) (tEnd : Int) :
    List BatchRequest :=
  let processing := { b with status := BatchStatus.processing }
  let chunkStates :=
    (chunkCounterStates b.completedCount b.failedCount
        (chunksOf maxConcurrentRequests outcomes)).map
      (fun cf => { processing with completedCount := cf.1, failedCount := cf.2 })
  b :: processing :: (chunkStates ++ [batchTerminalState b outcomes tEnd])

/-- The batch store and processing queue of the singleton processor. -/
structure BatchStore where
  batchRequests : List (String × BatchRequest)
  processingQueue : List String
deriving DecidableEq

/-- Remove the first occurrence of a string (the `indexOf` + `splice` pair
of `cancelBatch`). -/
def removeFirst : List String → String → List String
  | [], _ => []
  | x :: xs, y => if x = y then xs else x :: removeFirst xs y

/-- `cancelBatch` of the source: only the owner may cancel, only while
`pending`; on success the batch becomes `failed` with the cancellation
error and is removed from the queue. -/
def cancelBatch (st : BatchStore) (id userId : String) (now : Int) :
    Bool × BatchStore :=
  match mapLookup st.batchRequests id with
  | none => (false, st)
  | some batch =>
    if batch.userId = userId then
      if batch.status = BatchStatus.pending then
        let updated :=
          { batch with
            status := BatchStatus.failed
            error := some "Batch cancelled by user"
            completedAt := some now }
        (true, { batchRequests := mapInsert st.batchRequests id updated,
                 processingQueue := removeFirst st.processingQueue id })
      else (false, st)
    else (false, st)

/-- JS truthiness of an optional string field (`if (batch.callbackUrl)`,
`if (endpoint.systemPrompt)`): absent or empty is falsy. -/
def optStrTruthy : Option String → Bool
  | none => false
  | some s => !(s = "")

/-- The webhook events appended by `sendCallback`: the source only logs to
the console ("In a real implementation, this would make an actual HTTP
request"); it calls no webhook service and appends no event. -/
def sendCallbackEmittedEvents (_batch : BatchRequest) : List WebhookEvent := []

/-- The effects of finishing a batch in `processNextBatch`. -/
structure BatchCompletionEffects where
  finalBatch : BatchRequest
  callbacksInvoked : List String
  eventsEmitted : List WebhookEvent
deriving DecidableEq

/-- The completion tail of `processNextBatch`: write the terminal state,
then `if (batch.callbackUrl) this.sendCallback(batch.id)`. -/
def processBatchCompletion (b : BatchRequest) (outcomes : List Bool) (tEnd : Int) :
    BatchCompletionEffects :=
  let final := batchTerminalState b outcomes tEnd
  if optStrTruthy b.callbackUrl then
    { finalBatch := final, callbacksInvoked := [b.id],
      eventsEmitted := sendCallbackEmittedEvents final }
  else
    { finalBatch := final, callbacksInvoked := [], eventsEmitted := [] }

/-! ## Cache operations of the two pipelines -/

/-- A cache access performed on behalf of a request. -/
inductive CacheOp where
  | get
  | set
deriving DecidableEq

/-- Callers of the cache that pass no options. -/
def noCacheOptions : PartialCacheOptions := {}

/-- The cache accesses of the single-request chat route
(src/app/api/v1/chat/route.ts POST): `Get` only when not streaming; a hit
returns immediately; the streaming branch returns before the `Set`; the
non-streaming completion stores the response. -/
def chatRouteCacheOps {ρ : Type} (cache : CacheState ρ) (now : Int)
    (modelRequest : ModelRequest) : List CacheOp :=
  if !(modelRequest.stream.getD false) then
    match (getCachedResponse cache now modelRequest noCacheOptions).1 with
    | some _ => [CacheOp.get]
    | none => [CacheOp.get, CacheOp.set]
  else []

/-- The cache accesses of the batch child pipeline
(`BatchProcessor.processRequest`): `Get` is performed unconditionally; on a
miss the simulated response is stored unless the child request streams. -/
def batchProcessRequestCacheOps {ρ : Type} (cache : CacheState ρ) (now : Int)
    (request : ModelRequest) : List CacheOp :=
  match (getCachedResponse cache now request noCacheOptions).1 with
  | some _ => [CacheOp.get]
  | none =>
    if !(request.stream.getD false) then [CacheOp.get, CacheOp.set]
    else [CacheOp.get]

/-! ## Request validation (src/lib/models.ts `ModelRequestSchema`) -/

/-- The `role` enum check of the schema. -/
def validRole (r : String) : Bool := r = "system" || r = "user" || r = "assistant"

/-- The `detail` enum check of the schema. -/
def validDetail : Option String → Bool
  | none => true
  | some d => d = "low" || d = "high" || d = "auto"

/-- The content-part object check of the schema. -/
def validContentPart (p : ContentPart) : Bool :=
  (p.type = "text" || p.type = "image_url") &&
  (match p.image_url with
   | some iu => validDetail iu.detail
   | none => true)

/-- The message-content union check of the schema. -/
def validMessageContent : MessageContent → Bool
  | MessageContent.str _ => true
  | MessageContent.parts ps => ps.all validContentPart

/-- The per-message object check of the schema. -/
def validMessage (m : ChatMessage) : Bool :=
  validRole m.role && validMessageContent m.content

/-- A numeric range refinement (`z.number().min(lo).max(hi)`) on an optional
knob. -/
def ratInRange (lo hi : Rat) : Option Rat → Bool
  | none => true
  | some x => decide (lo ≤ x) && decide (x ≤ hi)

/-- The `response_format.type` enum check of the schema. -/
def validResponseFormat : Option ResponseFormatSpec → Bool
  | none => true
  | some rf =>
    match rf.type with
    | none => true
    | some t => t = "text" || t = "json_object"

/-- Whether `ModelRequestSchema.parse` accepts the request: the enum and
range refinements of the schema over the typed shape.  `messages` is
`z.array(...)` with no minimum length, so no non-emptiness check appears
here. -/
def modelRequestSchemaAccepts (r : ModelRequest) : Bool :=
  r.messages.all validMessage &&
  ratInRange 0 2 r.temperature &&
  (match r.max_tokens with
   | none => true
   | some n => decide (0 < n)) &&
  ratInRange 0 1 r.top_p &&
  ratInRange (-2) 2 r.frequency_penalty &&
  ratInRange (-2) 2 r.presence_penalty &&
  validResponseFormat r.response_format

/-- The chat route refuses a non-endpoint request (HTTP 400, the
INVALID_REQUEST surface) exactly when the schema rejects it. -/
def chatRouteRejectsRequest (r : ModelRequest) : Bool :=
  !modelRequestSchemaAccepts r

/-! ## Spec-worded comparison definition and concrete inputs -/

/-- Modelled from the claim wording (spec 4.4 feature gating): required
features where `function_call` merely being PRESENT requires function
calling.  Compare `getRequiredFeatures`, which follows the source and treats
an empty-string `function_call` as falsy. -/
def specRequiredFeatures (r : ModelRequest) : SupportedFeatures :=
  { vision := r.messages.any messageHasImagePart,
    functionCalling :=
      (match r.functions with
       | some fs => !fs.isEmpty
       | none => false) || r.function_call.isSome,
    toolUse :=
      match r.tools with
      | some ts => !ts.isEmpty
      | none => false,
    json :=
      match r.response_format with
      | some rf => rf.type = some "json_object"
      | none => false }

/-- A plain one-message request. -/
def reqPlain : ModelRequest :=
  { model := "openai/gpt-4o",
    messages := [{ role := "user", content := MessageContent.str "Hi" }] }

/-- A request whose `function_call` is present but is the empty string. -/
def reqEmptyFunctionCall : ModelRequest :=
  { model := "meta-llama/llama-3-70b-instruct",
    messages := [{ role := "user", content := MessageContent.str "hi" }],
    function_call := some (FunctionCallValue.str "") }

/-- A request with an empty `messages` list. -/
def reqEmptyMessages : ModelRequest :=
  { model := "openai/gpt-4o", messages := [] }

/-- A streaming request. -/
def reqStreaming : ModelRequest :=
  { model := "openai/gpt-4o",
    messages := [{ role := "user", content := MessageContent.str "hi" }],
    stream := some true }

/-- A private endpoint owned by alice. -/
def epAlice : CustomEndpointConfig :=
  { id := "endpoint_1", name := "alice preset", description := "",
    baseModel := "openai/gpt-4o", fallbacks := [],
    routingStrategy := RoutingStrategy.fallback, parameters := {},
    systemPrompt := none, createdAt := 0, updatedAt := 0,
    owner := "alice", isPublic := false }

/-- An endpoint exercising the fallback and system-prompt branches. -/
def epPreset : CustomEndpointConfig :=
  { id := "endpoint_2", name := "team preset", description := "demo",
    baseModel := "anthropic/claude-3-sonnet",
    fallbacks := ["openai/gpt-3.5-turbo"],
    routingStrategy := RoutingStrategy.fallback, parameters := {},
    systemPrompt := some "Be helpful.", createdAt := 0, updatedAt := 0,
    owner := "alice", isPublic := true }

/-- A store holding the two endpoints. -/
def endpointStore0 : EndpointStore :=
  [("endpoint_1", epAlice), ("endpoint_2", epPreset)]

/-- A pending batch owned by alice, with a callback URL. -/
def batchPending : BatchRequest :=
  createBatch "batch_1" "alice" [reqPlain, reqPlain, reqPlain]
    { callbackUrl := some "https://example.com/cb" } 0

/-- A store holding the pending batch, queued. -/
def batchStore0 : BatchStore :=
  { batchRequests := [("batch_1", batchPending)], processingQueue := ["batch_1"] }

/-- Pairwise monotone counters on a list of (completed, failed) pairs. -/
def pairsMonotone : List (Nat × Nat) → Prop
  | [] => True
  | [_] => True
  | a :: b :: rest => (a.1 ≤ b.1 ∧ a.2 ≤ b.2) ∧ pairsMonotone (b :: rest)

/-- Pairwise monotone counters across consecutive observable batch states. -/
def countersMonotone : List BatchRequest → Prop
  | [] => True
  | [_] => True
  | a :: b :: rest =>
    (a.completedCount ≤ b.completedCount ∧ a.failedCount ≤ b.failedCount) ∧
      countersMonotone (b :: rest)

/-! ## Router lemmas -/

lemma mem_insertSorted {α : Type} {le : α → α → Bool} {a x : α} {l : List α} :
    x ∈ insertSorted le a l ↔ x = a ∨ x ∈ l := by
  induction l with
  | nil => simp [insertSorted]
  | cons b bs ih =>
    simp only [insertSorted]
    split
    · simp
    · simp only [List.mem_cons, ih]
      tauto

lemma mem_sortByLe {α : Type} {le : α → α → Bool} {x : α} {l : List α} :
    x ∈ sortByLe le l ↔ x ∈ l := by
  induction l with
  | nil => simp [sortByLe]
  | cons a as ih => simp [sortByLe, mem_insertSorted, ih]

lemma band_true_elim {a b : Bool} (h : (a && b) = true) : a = true ∧ b = true := by
  constructor
  · exact Bool.and_elim_left h
  · exact Bool.and_elim_right h

lemma exists_info_of_modelSupports {m : String} {required : SupportedFeatures}
    (h : modelSupportsFeatures m required = true) :
    ∃ info, getModelById m = some info ∧
      featureSuperset required info.supportedFeatures = true := by
  unfold modelSupportsFeatures at h
  cases hm : getModelById m with
  | none => rw [hm] at h; exact absurd h (by simp)
  | some info => rw [hm] at h; exact ⟨info, rfl, h⟩

lemma supports_of_handleFallbackRouting {avail : String → Bool} {p m : String}
    {fb : List String} {required : SupportedFeatures}
    (h : handleFallbackRouting avail p fb required = some m) :
    modelSupportsFeatures m required = true := by
  unfold handleFallbackRouting at h
  split at h
  · rename_i hcond
    cases h
    exact (band_true_elim hcond).2
  · split at h
    · rename_i f hf
      cases h
      have hp := List.find?_some hf
      exact (band_true_elim hp).2
    · have hp := List.find?_some h
      exact (band_true_elim hp).2

lemma supports_of_findLowestCostModel {avail : String → Bool} {m : String}
    {required : SupportedFeatures}
    (h : findLowestCostModel avail required = some m) :
    modelSupportsFeatures m required = true := by
  unfold findLowestCostModel at h
  rcases Option.map_eq_some'.mp h with ⟨mi, hfind, hid⟩
  have hmem := List.mem_of_find?_eq_some hfind
  rw [mem_sortByLe] at hmem
  have := (List.mem_filter.mp hmem).2
  rw [hid] at this
  exact this

lemma supports_of_findFastestModel {avail : String → Bool} {m : String}
    {required : SupportedFeatures}
    (h : findFastestModel avail required = some m) :
    modelSupportsFeatures m required = true := by
  unfold findFastestModel at h
  have hp := List.find?_some h
  exact (band_true_elim hp).2

lemma supports_of_findHighestQualityModel {avail : String → Bool} {m : String}
    {required : SupportedFeatures}
    (h : findHighestQualityModel avail required = some m) :
    modelSupportsFeatures m required = true := by
  unfold findHighestQualityModel at h
  have hp := List.find?_some h
  exact (band_true_elim hp).2

lemma supports_of_routeRequest {avail : String → Bool} {req : ModelRequest}
    {m : String} (h : routeRequest avail req = some m) :
    modelSupportsFeatures m (getRequiredFeatures req) = true := by
  unfold routeRequest at h
  split at h
  · exact supports_of_handleFallbackRouting h
  · exact supports_of_findLowestCostModel h
  · exact supports_of_findFastestModel h
  · exact supports_of_findHighestQualityModel h
  · dsimp only at h
    split at h
    · split at h
      · rename_i havail hsup
        cases h
        exact hsup
      · exact supports_of_handleFallbackRouting h
    · exact supports_of_handleFallbackRouting h

/-! ## Claim C1: routed models support the required features -/

/-- C1 counterexample: the request `reqEmptyFunctionCall` carries a present
`function_call` (the empty string), so by the claim wording it requires
function calling; yet default routing returns the llama model, whose catalog
entry has `functionCalling := false` — the source treats the empty-string
`function_call` as falsy and derives no requirement from it. -/
theorem C1_counterexample_empty_function_call :
    routeRequest (fun _ => true) reqEmptyFunctionCall =
      some "meta-llama/llama-3-70b-instruct" ∧
    (specRequiredFeatures reqEmptyFunctionCall).functionCalling = true ∧
    (getModelById "meta-llama/llama-3-70b-instruct").map
        (fun info => info.supportedFeatures.functionCalling) = some false := by
  refine ⟨?_, rfl, ?_⟩ <;> rfl

/-- C1 (amended): whenever `routeRequest` returns a model id — under any
routing strategy and any availability oracle — that id is a catalog model
whose feature set is a superset of the features the source extraction
requires: vision for an image part, function calling for non-empty
`functions` or a truthy (non-empty) `function_call`, tool use for non-empty
`tools`, and JSON mode for `response_format.type = json_object`. -/
theorem C1_routed_model_supports_required_features
    (avail : String → Bool) (req : ModelRequest) (m : String)
    (h : routeRequest avail req = some m) :
    ∃ info, getModelById m = some info ∧
      featureSuperset (getRequiredFeatures req) info.supportedFeatures = true :=
  exists_info_of_modelSupports (supports_of_routeRequest h)

/-- C1 witness: the amended theorem applied to a concrete plain request,
routed by the default strategy under an all-available oracle. -/
theorem C1_witness :
    routeRequest (fun _ => true) reqPlain = some "openai/gpt-4o" ∧
    ∃ info, getModelById "openai/gpt-4o" = some info ∧
      featureSuperset (getRequiredFeatures reqPlain) info.supportedFeatures = true :=
  ⟨rfl, C1_routed_model_supports_required_features (fun _ => true) reqPlain
    "openai/gpt-4o" rfl⟩

/-! ## Claim C4: empty messages pass validation -/

/-- C4: evaluation of the schema at the failing input.  `messages` is
`z.array(...)` with no minimum length, so the request with an empty
`messages` list passes `ModelRequestSchema` and the chat route does not
refuse it with INVALID_REQUEST, contrary to the specified boundary check. -/
theorem C4_empty_messages_accepted :
    reqEmptyMessages.messages = [] ∧
    modelRequestSchemaAccepts reqEmptyMessages = true ∧
    chatRouteRejectsRequest reqEmptyMessages = false :=
  ⟨rfl, rfl, rfl⟩

/-! ## Claim C5: the rewrite does not check accessibility -/

/-- C5 counterexample: `endpoint_1` is stored, owned by alice and not public,
yet the rewrite succeeds (it is not NOT_FOUND) — the source member takes no
caller and performs no accessibility check, so the result is the same for
every caller, including one who is neither the owner nor reading a public
endpoint. -/
theorem C5_counterexample_private_endpoint_applied :
    epAlice.owner = "alice" ∧ epAlice.isPublic = false ∧
    (applyEndpointToRequestM endpointStore0 "endpoint_1" reqPlain).isSome = true :=
  ⟨rfl, rfl, rfl⟩

/-- C5 (amended): the custom-endpoint rewrite returns NOT_FOUND (null)
exactly when no endpoint with the id is stored; accessibility is never
checked and the preset is applied whenever the endpoint exists, regardless
of the caller. -/
theorem C5_rewrite_not_found_iff_missing (endpoints : EndpointStore)
    (endpointId : String) (request : ModelRequest) :
    (applyEndpointToRequestM endpoints endpointId request = none ↔
      mapLookup endpoints endpointId = none) ∧
    (∀ e, mapLookup endpoints endpointId = some e →
      applyEndpointToRequestM endpoints endpointId request =
        some (applyEndpointToRequest e request)) := by
  constructor
  · unfold applyEndpointToRequestM
    cases mapLookup endpoints endpointId <;> simp
  · intro e he
    unfold applyEndpointToRequestM
    rw [he]
    rfl

/-- C5 witness: the amended theorem applied at the concrete store — an
unknown id is NOT_FOUND and a stored id has its preset applied. -/
theorem C5_witness :
    (applyEndpointToRequestM endpointStore0 "endpoint_404" reqPlain = none ↔
      mapLookup endpointStore0 "endpoint_404" = none) ∧
    applyEndpointToRequestM endpointStore0 "endpoint_1" reqPlain =
      some (applyEndpointToRequest epAlice reqPlain) :=
  ⟨(C5_rewrite_not_found_iff_missing endpointStore0 "endpoint_404" reqPlain).1,
   (C5_rewrite_not_found_iff_missing endpointStore0 "endpoint_1" reqPlain).2 epAlice rfl⟩

/-! ## Claim C7: cache operations of streaming requests -/

/-- C7 counterexample: a streaming child request processed inside a batch
still performs a cache lookup — `processRequest` calls `getCachedResponse`
unconditionally before checking `stream` — contradicting the claim that the
cache is never touched for stream=true. -/
theorem C7_counterexample_batch_streaming_get :
    reqStreaming.stream = some true ∧
    batchProcessRequestCacheOps (emptyCache Unit) 0 reqStreaming = [CacheOp.get] :=
  ⟨rfl, rfl⟩

/-- C7 (amended): for a request with stream=true the single-request chat
pipeline performs no cache operation at all, while the batch child pipeline
performs exactly the lookup (`Get`) and never the store (`Set`). -/
theorem C7_stream_cache_ops (ρ : Type) (cache : CacheState ρ) (now : Int)
    (req : ModelRequest) (h : req.stream = some true) :
    chatRouteCacheOps cache now req = [] ∧
    batchProcessRequestCacheOps cache now req = [CacheOp.get] := by
  constructor
  · unfold chatRouteCacheOps
    rw [h]
    rfl
  · unfold batchProcessRequestCacheOps
    cases hg : (getCachedResponse cache now req noCacheOptions).1 <;> simp [h]

/-- C7 witness: the amended theorem applied at a concrete streaming request
over the empty cache. -/
theorem C7_witness :
    reqStreaming.stream = some true ∧
    chatRouteCacheOps (emptyCache Unit) 0 reqStreaming = [] ∧
    batchProcessRequestCacheOps (emptyCache Unit) 0 reqStreaming = [CacheOp.get] :=
  ⟨rfl, (C7_stream_cache_ops Unit (emptyCache Unit) 0 reqStreaming rfl).1,
    (C7_stream_cache_ops Unit (emptyCache Unit) 0 reqStreaming rfl).2⟩

/-! ## Claim C2: idempotence of the endpoint rewriter -/

/-- Closed form of the fallback-copy step on the `fallbacks` field. -/
def fbMerge (e : CustomEndpointConfig) (fb : Option (List String)) : Option (List String) :=
  if fb.isNone && !e.fallbacks.isEmpty then some e.fallbacks else fb

/-- Closed form of the system-prompt step on the `messages` field. -/
def spMerge (e : CustomEndpointConfig) (msgs : List ChatMessage) : List ChatMessage :=
  match e.systemPrompt with
  | some sp =>
    if !(sp = "") && !(msgs.any (fun m => m.role = "system")) then
      { role := "system", content := MessageContent.str sp } :: msgs
    else msgs
  | none => msgs

/-- Closed form of a sampling-knob default step: keep the caller value when
present, else take the endpoint default. -/
def optMerge {α : Type} : Option α → Option α → Option α
  | some d, none => some d
  | _, b => b

lemma applyEndpointFallbacks_eq (e : CustomEndpointConfig) (r : ModelRequest) :
    applyEndpointFallbacks e r = { r with fallbacks := fbMerge e r.fallbacks } := by
  obtain ⟨f1, f2, f3, f4, f5, f6, f7, f8, f9, f10, f11, f12, f13, f14, f15⟩ := r
  unfold applyEndpointFallbacks fbMerge
  split <;> rename_i h <;> simp [h]

lemma applyEndpointSystemPrompt_eq (e : CustomEndpointConfig) (r : ModelRequest) :
    applyEndpointSystemPrompt e r = { r with messages := spMerge e r.messages } := by
  obtain ⟨f1, f2, f3, f4, f5, f6, f7, f8, f9, f10, f11, f12, f13, f14, f15⟩ := r
  unfold applyEndpointSystemPrompt spMerge
  cases e.systemPrompt with
  | none => rfl
  | some sp =>
    dsimp only
    split <;> rfl

lemma applyEndpointTemperature_eq (e : CustomEndpointConfig) (r : ModelRequest) :
    applyEndpointTemperature e r =
      { r with temperature := optMerge e.parameters.temperature r.temperature } := by
  obtain ⟨f1, f2, f3, f4, f5, f6, f7, f8, f9, f10, f11, f12, f13, f14, f15⟩ := r
  unfold applyEndpointTemperature
  rcases e.parameters.temperature with _ | t <;> rcases f3 with _ | v <;> rfl

lemma applyEndpointMaxTokens_eq (e : CustomEndpointConfig) (r : ModelRequest) :
    applyEndpointMaxTokens e r =
      { r with max_tokens := optMerge e.parameters.maxTokens r.max_tokens } := by
  obtain ⟨f1, f2, f3, f4, f5, f6, f7, f8, f9, f10, f11, f12, f13, f14, f15⟩ := r
  unfold applyEndpointMaxTokens
  rcases e.parameters.maxTokens with _ | t <;> rcases f4 with _ | v <;> rfl

lemma applyEndpointTopP_eq (e : CustomEndpointConfig) (r : ModelRequest) :
    applyEndpointTopP e r =
      { r with top_p := optMerge e.parameters.topP r.top_p } := by
  obtain ⟨f1, f2, f3, f4, f5, f6, f7, f8, f9, f10, f11, f12, f13, f14, f15⟩ := r
  unfold applyEndpointTopP
  rcases e.parameters.topP with _ | t <;> rcases f5 with _ | v <;> rfl

lemma applyEndpointFrequencyPenalty_eq (e : CustomEndpointConfig) (r : ModelRequest) :
    applyEndpointFrequencyPenalty e r =
      { r with frequency_penalty := optMerge e.parameters.frequencyPenalty r.frequency_penalty } := by
  obtain ⟨f1, f2, f3, f4, f5, f6, f7, f8, f9, f10, f11, f12, f13, f14, f15⟩ := r
  unfold applyEndpointFrequencyPenalty
  rcases e.parameters.frequencyPenalty with _ | t <;> rcases f8 with _ | v <;> rfl

lemma applyEndpointPresencePenalty_eq (e : CustomEndpointConfig) (r : ModelRequest) :
    applyEndpointPresencePenalty e r =
      { r with presence_penalty := optMerge e.parameters.presencePenalty r.presence_penalty } := by
  obtain ⟨f1, f2, f3, f4, f5, f6, f7, f8, f9, f10, f11, f12, f13, f14, f15⟩ := r
  unfold applyEndpointPresencePenalty
  rcases e.parameters.presencePenalty with _ | t <;> rcases f9 with _ | v <;> rfl

/-- Closed form of the whole rewriter: each field is a function of the same
field of the input request. -/
lemma applyEndpointToRequest_eq (e : CustomEndpointConfig) (r : ModelRequest) :
    applyEndpointToRequest e r =
      { r with
        model := e.baseModel
        route := some e.routingStrategy
        fallbacks := fbMerge e r.fallbacks
        messages := spMerge e r.messages
        temperature := optMerge e.parameters.temperature r.temperature
        max_tokens := optMerge e.parameters.maxTokens r.max_tokens
        top_p := optMerge e.parameters.topP r.top_p
        frequency_penalty := optMerge e.parameters.frequencyPenalty r.frequency_penalty
        presence_penalty := optMerge e.parameters.presencePenalty r.presence_penalty } := by
  unfold applyEndpointToRequest
  rw [applyEndpointFallbacks_eq, applyEndpointSystemPrompt_eq, applyEndpointTemperature_eq,
    applyEndpointMaxTokens_eq, applyEndpointTopP_eq, applyEndpointFrequencyPenalty_eq,
    applyEndpointPresencePenalty_eq]
  rfl

lemma fbMerge_idem (e : CustomEndpointConfig) (fb : Option (List String)) :
    fbMerge e (fbMerge e fb) = fbMerge e fb := by
  unfold fbMerge
  rcases fb with _ | l
  · rcases he : e.fallbacks.isEmpty <;> simp [he]
  · simp

lemma spMerge_idem (e : CustomEndpointConfig) (msgs : List ChatMessage) :
    spMerge e (spMerge e msgs) = spMerge e msgs := by
  unfold spMerge
  cases e.systemPrompt with
  | none => rfl
  | some sp =>
    dsimp only
    split <;> rename_i h
    · have hany :
          (({ role := "system", content := MessageContent.str sp, name := none } :
              ChatMessage) :: msgs).any (fun m => m.role = "system") = true := by
        simp
      simp [hany]
    · simp [h]

lemma optMerge_idem {α : Type} (d b : Option α) :
    optMerge d (optMerge d b) = optMerge d b := by
  rcases d with _ | x <;> rcases b with _ | y <;> rfl

lemma applyEndpointToRequest_idem (e : CustomEndpointConfig) (r : ModelRequest) :
    applyEndpointToRequest e (applyEndpointToRequest e r) = applyEndpointToRequest e r := by
  rw [applyEndpointToRequest_eq, applyEndpointToRequest_eq]
  simp [fbMerge_idem, spMerge_idem, optMerge_idem]

/-- C2: for every stored endpoint and request for which the rewrite succeeds,
applying the rewrite a second time returns the same request — the second
application overwrites `model` and `route` with the same values, copies no
fallbacks again, prepends no second system message, and changes no sampling
knob. -/
theorem C2_rewrite_idempotent (endpoints : EndpointStore) (endpointId : String)
    (r r1 : ModelRequest)
    (h : applyEndpointToRequestM endpoints endpointId r = some r1) :
    applyEndpointToRequestM endpoints endpointId r1 = some r1 := by
  unfold applyEndpointToRequestM at h ⊢
  cases he : mapLookup endpoints endpointId with
  | none => rw [he] at h; simp at h
  | some e =>
    rw [he] at h
    simp only [Option.map] at h ⊢
    rw [Option.some_inj] at h ⊢
    rw [← h]
    exact applyEndpointToRequest_idem e r

/-- C2 witness: the idempotence theorem applied at a concrete endpoint that
sets a base model, fallbacks and a system prompt. -/
theorem C2_witness :
    applyEndpointToRequestM endpointStore0 "endpoint_2" reqPlain =
      some (applyEndpointToRequest epPreset reqPlain) ∧
    applyEndpointToRequestM endpointStore0 "endpoint_2"
        (applyEndpointToRequest epPreset reqPlain) =
      some (applyEndpointToRequest epPreset reqPlain) :=
  ⟨rfl, C2_rewrite_idempotent endpointStore0 "endpoint_2" reqPlain
    (applyEndpointToRequest epPreset reqPlain) rfl⟩

/-! ## Claim C3: the cache contract -/

/-- C3: with caching enabled, `Get` returns a stored entry iff one exists
under the request fingerprint with expiry strictly later than now; an entry
found expired is removed by the access; immediately after `Set` with a
positive ttl, `Get` under the same options returns the stored response, and
once the ttl has elapsed it returns nothing. -/
theorem C3_cache_contract (ρ : Type) (cache : CacheState ρ) (now : Int)
    (request : ModelRequest) (options : PartialCacheOptions)
    (henabled : (mergeCacheOptions defaultCacheOptions options).cachingEnabled = true) :
    (∀ e, (getCachedResponse cache now request options).1 = some e ↔
      cache (generateCacheKey request (mergeCacheOptions defaultCacheOptions options)) =
          some e ∧
        now < e.expiresAt) ∧
    (∀ e, cache (generateCacheKey request (mergeCacheOptions defaultCacheOptions options)) =
          some e →
        ¬ now < e.expiresAt →
        (getCachedResponse cache now request options).2
          (generateCacheKey request (mergeCacheOptions defaultCacheOptions options)) = none) ∧
    (∀ (response : ρ) (usage : TokenUsage),
        0 < (mergeCacheOptions defaultCacheOptions options).ttl →
        (getCachedResponse
            (setCachedResponse cache now request response usage options)
            now request options).1 =
          some { modelId := request.model, response := response, createdAt := now,
                 expiresAt := now + (mergeCacheOptions defaultCacheOptions options).ttl,
                 tokenUsage := usage }) ∧
    (∀ (response : ρ) (usage : TokenUsage) (t : Int),
        now + (mergeCacheOptions defaultCacheOptions options).ttl ≤ t →
        (getCachedResponse
            (setCachedResponse cache now request response usage options)
            t request options).1 = none) := by
  refine ⟨?_, ?_, ?_, ?_⟩
  · intro e
    unfold getCachedResponse
    simp only [henabled, Bool.not_true, Bool.false_eq_true, if_false]
    cases hl :
        cache (generateCacheKey request (mergeCacheOptions defaultCacheOptions options)) with
    | none => simp
    | some item =>
      by_cases ht : now < item.expiresAt
      · simp only [if_pos ht]
        constructor
        · intro he
          cases he
          exact ⟨rfl, ht⟩
        · intro ⟨hl2, _⟩
          cases hl2
          rfl
      · simp only [if_neg ht]
        constructor
        · intro he
          cases he
        · intro ⟨hl2, ht2⟩
          cases hl2
          exact absurd ht2 ht
  · intro e hl ht
    unfold getCachedResponse
    simp only [henabled, Bool.not_true, Bool.false_eq_true, if_false]
    rw [hl]
    simp only [if_neg ht]
    unfold cacheErase
    simp
  · intro response usage httl
    unfold getCachedResponse setCachedResponse
    simp only [henabled, Bool.not_true, Bool.false_eq_true, if_false]
    unfold cacheInsert
    simp only [if_pos rfl]
    have : now < now + (mergeCacheOptions defaultCacheOptions options).ttl := by omega
    simp [this]
  · intro response usage t ht
    unfold getCachedResponse setCachedResponse
    simp only [henabled, Bool.not_true, Bool.false_eq_true, if_false]
    unfold cacheInsert
    simp only [if_pos rfl]
    have : ¬ t < now + (mergeCacheOptions defaultCacheOptions options).ttl := by omega
    simp [this]

/-- C3 witness: the contract applied over the empty cache at a concrete
request with the default options (caching enabled, ttl one hour): the stored
entry is returned immediately and is gone once the ttl has elapsed. -/
theorem C3_witness :
    (getCachedResponse
        (setCachedResponse (emptyCache String) 0 reqPlain "ok" ⟨1, 2, 3⟩ noCacheOptions)
        0 reqPlain noCacheOptions).1 =
      some { modelId := "openai/gpt-4o", response := "ok", createdAt := 0,
             expiresAt := 3600000, tokenUsage := ⟨1, 2, 3⟩ } ∧
    (getCachedResponse
        (setCachedResponse (emptyCache String) 0 reqPlain "ok" ⟨1, 2, 3⟩ noCacheOptions)
        3600000 reqPlain noCacheOptions).1 = none :=
  ⟨(C3_cache_contract String (emptyCache String) 0 reqPlain noCacheOptions rfl).2.2.1
      "ok" ⟨1, 2, 3⟩ (by decide),
   (C3_cache_contract String (emptyCache String) 0 reqPlain noCacheOptions rfl).2.2.2
      "ok" ⟨1, 2, 3⟩ 3600000 (by decide)⟩

/-! ## Claim C9: batch cancellation -/

lemma mapLookup_mapInsert_self {κ α : Type} [DecidableEq κ]
    (m : List (κ × α)) (k : κ) (v : α) :
    mapLookup (mapInsert m k v) k = some v := by
  induction m with
  | nil => simp [mapInsert, mapLookup]
  | cons p rest ih =>
    obtain ⟨q, w⟩ := p
    by_cases h : q = k <;> simp [mapInsert, mapLookup, h, ih]

lemma mapLookup_mapInsert_ne {κ α : Type} [DecidableEq κ]
    (m : List (κ × α)) (k k2 : κ) (v : α) (h : ¬ k2 = k) :
    mapLookup (mapInsert m k v) k2 = mapLookup m k2 := by
  have hk : ¬ k = k2 := fun he => h (Eq.symm he)
  induction m with
  | nil => simp [mapInsert, mapLookup, hk]
  | cons p rest ih =>
    obtain ⟨q, w⟩ := p
    by_cases hq : q = k
    · subst hq
      simp [mapInsert, mapLookup, hk]
    · simp [mapInsert, mapLookup, hq, ih]

/-- C9 counterexample: cancelling the concrete pending batch succeeds, but
the stored error message is "Batch cancelled by user", not the "cancelled"
stated by the claim. -/
theorem C9_counterexample_error_string :
    (cancelBatch batchStore0 "batch_1" "alice" 5).1 = true ∧
    (mapLookup (cancelBatch batchStore0 "batch_1" "alice" 5).2.batchRequests
        "batch_1").map (fun b => b.error) = some (some "Batch cancelled by user") ∧
    ¬ ((some "Batch cancelled by user" : Option String) = some "cancelled") :=
  ⟨rfl, rfl, by decide⟩

/-- C9 (amended): `cancelBatch` succeeds iff a batch with the id exists,
belongs to the caller, and is still pending; on success it becomes `failed`
with error "Batch cancelled by user" and `completedAt` set, is removed from
the processing queue, and no other batch changes; in every other case the
call fails and the store is unchanged. -/
theorem C9_cancel_batch_contract (st : BatchStore) (id userId : String) (now : Int) :
    ((cancelBatch st id userId now).1 = true ↔
      ∃ b, mapLookup st.batchRequests id = some b ∧ b.userId = userId ∧
        b.status = BatchStatus.pending) ∧
    (∀ b, mapLookup st.batchRequests id = some b → b.userId = userId →
      b.status = BatchStatus.pending →
      mapLookup (cancelBatch st id userId now).2.batchRequests id =
          some { b with
                 status := BatchStatus.failed
                 error := some "Batch cancelled by user"
                 completedAt := some now } ∧
        (cancelBatch st id userId now).2.processingQueue =
          removeFirst st.processingQueue id ∧
        (∀ k, ¬ k = id →
          mapLookup (cancelBatch st id userId now).2.batchRequests k =
            mapLookup st.batchRequests k)) ∧
    ((cancelBatch st id userId now).1 = false →
      (cancelBatch st id userId now).2 = st) := by
  refine ⟨?_, ?_, ?_⟩
  · unfold cancelBatch
    cases hl : mapLookup st.batchRequests id with
    | none =>
      dsimp only
      constructor
      · intro h
        cases h
      · intro ⟨b, hb, _⟩
        cases hb
    | some b =>
      dsimp only
      by_cases hu : b.userId = userId
      · by_cases hs : b.status = BatchStatus.pending
        · rw [if_pos hu, if_pos hs]
          exact ⟨fun _ => ⟨b, rfl, hu, hs⟩, fun _ => rfl⟩
        · rw [if_pos hu, if_neg hs]
          constructor
          · intro h
            cases h
          · intro ⟨b2, hb2, _, hs2⟩
            cases hb2
            exact absurd hs2 hs
      · rw [if_neg hu]
        constructor
        · intro h
          cases h
        · intro ⟨b2, hb2, hu2, _⟩
          cases hb2
          exact absurd hu2 hu
  · intro b hb hu hs
    unfold cancelBatch
    rw [hb]
    dsimp only
    rw [if_pos hu, if_pos hs]
    exact ⟨mapLookup_mapInsert_self _ _ _, rfl,
      fun k hk => mapLookup_mapInsert_ne _ _ _ _ hk⟩
  · intro h
    unfold cancelBatch at h ⊢
    cases hl : mapLookup st.batchRequests id with
    | none => rfl
    | some b =>
      rw [hl] at h
      dsimp only at h ⊢
      by_cases hu : b.userId = userId
      · by_cases hs : b.status = BatchStatus.pending
        · rw [if_pos hu, if_pos hs] at h
          cases h
        · rw [if_pos hu, if_neg hs]
      · rw [if_neg hu]

/-- C9 witness: the amended contract applied at the concrete store with its
pending batch. -/
theorem C9_witness :
    (cancelBatch batchStore0 "batch_1" "alice" 5).1 = true ∧
    mapLookup (cancelBatch batchStore0 "batch_1" "alice" 5).2.batchRequests "batch_1" =
      some { batchPending with
             status := BatchStatus.failed
             error := some "Batch cancelled by user"
             completedAt := some 5 } :=
  ⟨((C9_cancel_batch_contract batchStore0 "batch_1" "alice" 5).1).mpr
      ⟨batchPending, rfl, rfl, rfl⟩,
   (((C9_cancel_batch_contract batchStore0 "batch_1" "alice" 5).2.1)
      batchPending rfl rfl rfl).1⟩

/-! ## Claim C10: the endpoint update frame -/

/-- C10: an owner update keeps `id`, `owner` and `createdAt`, sets
`updatedAt`, overrides exactly the supplied fields while absent fields keep
their stored values, and touches no other store key; a non-owner update (or
an unknown id) returns null and leaves the store unchanged. -/
theorem C10_update_endpoint_frame (endpoints : EndpointStore) (id : String)
    (input : CustomEndpointInputPartial) (owner : String) (now : Int) :
    (∀ e, mapLookup endpoints id = some e → e.owner = owner →
      ∃ e2, (updateEndpoint endpoints id input owner now).1 = some e2 ∧
        (updateEndpoint endpoints id input owner now).2 = mapInsert endpoints id e2 ∧
        e2.id = e.id ∧ e2.owner = e.owner ∧ e2.createdAt = e.createdAt ∧
        e2.updatedAt = now ∧
        e2.name = input.name.getD e.name ∧
        e2.description = input.description.getD e.description ∧
        e2.baseModel = input.baseModel.getD e.baseModel ∧
        e2.fallbacks = input.fallbacks.getD e.fallbacks ∧
        e2.routingStrategy = input.routingStrategy.getD e.routingStrategy ∧
        e2.parameters = input.parameters.getD e.parameters ∧
        e2.isPublic = input.isPublic.getD e.isPublic ∧
        (input.systemPrompt = none → e2.systemPrompt = e.systemPrompt) ∧
        (∀ v, input.systemPrompt = some v → e2.systemPrompt = some v) ∧
        (input.apiKey = none → e2.apiKey = e.apiKey) ∧
        (∀ v, input.apiKey = some v → e2.apiKey = some v) ∧
        (input.rateLimit = none → e2.rateLimit = e.rateLimit) ∧
        (∀ v, input.rateLimit = some v → e2.rateLimit = some v) ∧
        (∀ k, ¬ k = id →
          mapLookup (updateEndpoint endpoints id input owner now).2 k =
            mapLookup endpoints k)) ∧
    (∀ e, mapLookup endpoints id = some e → ¬ e.owner = owner →
      updateEndpoint endpoints id input owner now = (none, endpoints)) ∧
    (mapLookup endpoints id = none →
      updateEndpoint endpoints id input owner now = (none, endpoints)) := by
  refine ⟨?_, ?_, ?_⟩
  · intro e he ho
    unfold updateEndpoint
    rw [he]
    dsimp only
    rw [if_pos ho]
    refine ⟨_, rfl, rfl, rfl, rfl, rfl, rfl, rfl, rfl, rfl, rfl, rfl, rfl, rfl,
      ?_, ?_, ?_, ?_, ?_, ?_, ?_⟩
    · intro h
      rw [h]
    · intro v h
      rw [h]
    · intro h
      rw [h]
    · intro v h
      rw [h]
    · intro h
      rw [h]
    · intro v h
      rw [h]
    · intro k hk
      exact mapLookup_mapInsert_ne _ _ _ _ hk
  · intro e he ho
    unfold updateEndpoint
    rw [he]
    dsimp only
    rw [if_neg ho]
  · intro he
    unfold updateEndpoint
    rw [he]

/-- C10 witness: the frame theorem applied at the concrete store — a rename
by the owner keeps id, owner, createdAt and base model, and sets updatedAt. -/
theorem C10_witness :
    ∃ e2, (updateEndpoint endpointStore0 "endpoint_1"
        { name := some "renamed" } "alice" 7).1 = some e2 ∧
      e2.id = "endpoint_1" ∧ e2.owner = "alice" ∧ e2.createdAt = 0 ∧
      e2.updatedAt = 7 ∧ e2.name = "renamed" ∧ e2.baseModel = "openai/gpt-4o" := by
  obtain ⟨e2, hres, _, hid, howner, hcreated, hupd, hname, _, hbase, _⟩ :=
    (C10_update_endpoint_frame endpointStore0 "endpoint_1"
      { name := some "renamed" } "alice" 7).1 epAlice rfl rfl
  exact ⟨e2, hres, hid, howner, hcreated, hupd, hname, hbase⟩

/-! ## Claim C8: batch counter invariant and monotonicity -/

lemma countP_true_add_countP_false (l : List Bool) :
    l.countP (fun b => b) + l.countP (fun b => !b) = l.length := by
  induction l with
  | nil => rfl
  | cons b rest ih =>
    cases b <;> simp [List.countP_cons] <;> omega

lemma chunksOf_join_aux {α : Type} (n : Nat) :
    ∀ (k : Nat) (l : List α), l.length ≤ k → (chunksOf n l).flatten = l := by
  intro k
  induction k with
  | zero =>
    intro l h
    cases l with
    | nil => cases n <;> simp [chunksOf]
    | cons x xs => simp at h
  | succ k ih =>
    intro l h
    cases l with
    | nil => cases n <;> simp [chunksOf]
    | cons x xs =>
      cases n with
      | zero => simp [chunksOf]
      | succ m =>
        rw [chunksOf, List.flatten_cons]
        rw [ih (xs.drop m) (by simp only [List.length_drop]; simp at h; omega)]
        exact List.take_append_drop (m + 1) (x :: xs)

lemma chunksOf_join {α : Type} (n : Nat) (l : List α) :
    (chunksOf n l).flatten = l :=
  chunksOf_join_aux n l.length l (Nat.le_refl _)

lemma ccs_mem_bound (chs : List (List Bool)) (c f : Nat) :
    ∀ p ∈ chunkCounterStates c f chs, p.1 + p.2 ≤ c + f + chs.flatten.length := by
  induction chs generalizing c f with
  | nil => intro p hp; cases hp
  | cons ch rest ih =>
    intro p hp
    rw [chunkCounterStates] at hp
    have hlen := countP_true_add_countP_false ch
    rcases List.mem_cons.mp hp with hp | hp
    · rw [hp]
      simp only [List.flatten_cons, List.length_append]
      omega
    · have := ih (c + ch.countP (fun b => b)) (f + ch.countP (fun b => !b)) p hp
      simp only [List.flatten_cons, List.length_append]
      omega

lemma ccs_mono_with_last (chs : List (List Bool)) (c f : Nat) :
    pairsMonotone ((c, f) ::
      (chunkCounterStates c f chs ++
        [(c + chs.flatten.countP (fun b => b), f + chs.flatten.countP (fun b => !b))])) := by
  induction chs generalizing c f with
  | nil =>
    simp only [chunkCounterStates, List.nil_append, List.flatten_nil]
    exact ⟨⟨Nat.le_add_right _ _, Nat.le_add_right _ _⟩, trivial⟩
  | cons ch rest ih =>
    rw [chunkCounterStates, List.flatten_cons]
    simp only [List.countP_append]
    have h1 : c + (ch.countP (fun b => b) + rest.flatten.countP (fun b => b)) =
        c + ch.countP (fun b => b) + rest.flatten.countP (fun b => b) := by omega
    have h2 : f + (ch.countP (fun b => !b) + rest.flatten.countP (fun b => !b)) =
        f + ch.countP (fun b => !b) + rest.flatten.countP (fun b => !b) := by omega
    rw [h1, h2]
    exact ⟨⟨Nat.le_add_right _ _, Nat.le_add_right _ _⟩,
      ih (c + ch.countP (fun b => b)) (f + ch.countP (fun b => !b))⟩

lemma countersMonotone_of_pairs :
    ∀ (l : List BatchRequest),
      pairsMonotone (l.map (fun s => (s.completedCount, s.failedCount))) →
      countersMonotone l := by
  intro l
  induction l with
  | nil => intro _; trivial
  | cons a rest ih =>
    cases rest with
    | nil => intro _; trivial
    | cons b rest2 =>
      intro h
      rw [List.map, List.map, pairsMonotone] at h
      exact ⟨h.1, ih h.2⟩

lemma batchTerminal_counts (b : BatchRequest) (outcomes : List Bool) (tEnd : Int) :
    (batchTerminalState b outcomes tEnd).completedCount = outcomes.countP (fun x => x) ∧
    (batchTerminalState b outcomes tEnd).failedCount = outcomes.countP (fun x => !x) := by
  unfold batchTerminalState batchResultsOf
  constructor
  · show ((outcomes.map _).filter _).length = _
    rw [← List.countP_eq_length_filter, List.countP_map]
    apply List.countP_congr
    intro a _
    cases a <;> rfl
  · show ((outcomes.map _).filter _).length = _
    rw [← List.countP_eq_length_filter, List.countP_map]
    apply List.countP_congr
    intro a _
    cases a <;> rfl

/-- C8: across the observable updates of a batch processed to completion —
creation, the processing transition, each per-chunk progress update, and the
terminal update — `completedCount + failedCount ≤ requestCount` holds at
every state and both counters are monotonically non-decreasing. -/
theorem C8_batch_counters (idb userId : String) (requests : List ModelRequest)
    (options : BatchRequestOptions) (now tEnd : Int) (outcomes : List Bool)
    (hlen : outcomes.length = requests.length) :
    (∀ s ∈ batchObservableStates (createBatch idb userId requests options now)
        outcomes tEnd,
      s.completedCount + s.failedCount ≤ s.requestCount) ∧
    countersMonotone
      (batchObservableStates (createBatch idb userId requests options now)
        outcomes tEnd) := by
  have hT := batchTerminal_counts (createBatch idb userId requests options now) outcomes tEnd
  have hmap :
      (batchObservableStates (createBatch idb userId requests options now)
          outcomes tEnd).map (fun s => (s.completedCount, s.failedCount)) =
        (0, 0) :: (0, 0) ::
          (chunkCounterStates 0 0 (chunksOf maxConcurrentRequests outcomes) ++
            [(outcomes.countP (fun x => x), outcomes.countP (fun x => !x))]) := by
    unfold batchObservableStates
    simp only [List.map_cons, List.map_append, List.map_map]
    rw [hT.1, hT.2]
    simp only [Function.comp_def, Prod.mk.eta, List.map_id']
    rfl
  constructor
  · intro s hs
    have hreq : s.requestCount = requests.length := by
      unfold batchObservableStates at hs
      rcases List.mem_cons.mp hs with h | hs2
      · rw [h]; rfl
      rcases List.mem_cons.mp hs2 with h | hs3
      · rw [h]; rfl
      rcases List.mem_append.mp hs3 with h | h
      · rcases List.mem_map.mp h with ⟨cf, _, he⟩
        rw [← he]; rfl
      · rcases List.mem_cons.mp h with h | h
        · rw [h]; rfl
        · cases h
    have hmem : (s.completedCount, s.failedCount) ∈
        (batchObservableStates (createBatch idb userId requests options now)
          outcomes tEnd).map (fun s => (s.completedCount, s.failedCount)) :=
      List.mem_map_of_mem _ hs
    rw [hmap] at hmem
    have hbound : s.completedCount + s.failedCount ≤ outcomes.length := by
      rcases List.mem_cons.mp hmem with h | hmem2
      · have h1 := congrArg Prod.fst h
        have h2 := congrArg Prod.snd h
        simp at h1 h2
        omega
      rcases List.mem_cons.mp hmem2 with h | hmem3
      · have h1 := congrArg Prod.fst h
        have h2 := congrArg Prod.snd h
        simp at h1 h2
        omega
      rcases List.mem_append.mp hmem3 with h | h
      · have := ccs_mem_bound (chunksOf maxConcurrentRequests outcomes) 0 0 _ h
        rw [chunksOf_join] at this
        simpa using this
      · rcases List.mem_cons.mp h with h | h
        · have h1 := congrArg Prod.fst h
          have h2 := congrArg Prod.snd h
          simp at h1 h2
          have := countP_true_add_countP_false outcomes
          omega
        · cases h
    rw [hreq, ← hlen]
    exact hbound
  · apply countersMonotone_of_pairs
    rw [hmap]
    have hmono := ccs_mono_with_last (chunksOf maxConcurrentRequests outcomes) 0 0
    rw [chunksOf_join] at hmono
    simp only [Nat.zero_add] at hmono
    exact ⟨⟨Nat.le_refl _, Nat.le_refl _⟩, hmono⟩

/-- C8 witness: the counter invariant applied at a concrete three-request
batch whose children settle as success, success, failure. -/
theorem C8_witness :
    (∀ s ∈ batchObservableStates
        (createBatch "batch_1" "alice" [reqPlain, reqPlain, reqPlain]
          { callbackUrl := some "https://example.com/cb" } 0) [true, true, false] 9,
      s.completedCount + s.failedCount ≤ s.requestCount) ∧
    countersMonotone
      (batchObservableStates
        (createBatch "batch_1" "alice" [reqPlain, reqPlain, reqPlain]
          { callbackUrl := some "https://example.com/cb" } 0) [true, true, false] 9) :=
  C8_batch_counters "batch_1" "alice" [reqPlain, reqPlain, reqPlain]
    { callbackUrl := some "https://example.com/cb" } 0 9 [true, true, false] rfl

/-! ## Claim C6: no webhook event on batch completion -/

/-- C6 counterexample: processing the concrete batch (which has a callback
URL) to completion appends no webhook event at all — `sendCallback` only
logs to the console — so no `batch.completed` event is appended to the event
log or fanned out. -/
theorem C6_counterexample_no_event_emitted :
    optStrTruthy batchPending.callbackUrl = true ∧
    (processBatchCompletion batchPending [true, true, true] 9).callbacksInvoked =
      ["batch_1"] ∧
    (processBatchCompletion batchPending [true, true, true] 9).eventsEmitted = [] :=
  ⟨rfl, rfl, rfl⟩

/-- C6 (amended): when a batch with a truthy `callback_url` reaches
`completed`, `sendCallback` is invoked for it, but it emits no webhook event
(the source implementation only logs); moreover the webhook event-type
enumeration contains no "batch.completed" member. -/
theorem C6_callback_logs_only (b : BatchRequest) (outcomes : List Bool) (tEnd : Int)
    (h : optStrTruthy b.callbackUrl = true) :
    (processBatchCompletion b outcomes tEnd).callbacksInvoked = [b.id] ∧
    (processBatchCompletion b outcomes tEnd).eventsEmitted = [] ∧
    (∀ t : WebhookEventType, ¬ webhookEventTypeName t = "batch.completed") := by
  refine ⟨?_, ?_, ?_⟩
  · unfold processBatchCompletion
    simp [h]
  · unfold processBatchCompletion
    simp [h, sendCallbackEmittedEvents]
  · intro t
    cases t <;> decide

/-- C6 witness: the amended theorem applied at the concrete batch with a
callback URL. -/
theorem C6_witness :
    (processBatchCompletion batchPending [true, true, false] 9).callbacksInvoked =
      [batchPending.id] ∧
    (processBatchCompletion batchPending [true, true, false] 9).eventsEmitted = [] ∧
    (∀ t : WebhookEventType, ¬ webhookEventTypeName t = "batch.completed") :=
  C6_callback_logs_only batchPending [true, true, false] 9 rfl
